import Mathlib

/-!
# Verification of the concurrency-demo timer-driven simulations

Shallow embedding of the state and tick logic of the demo pages in
`adamreaksmey/concurrency-demo`. Each page holds a bag of React `useState`
fields; a repeating `setInterval` timer advances a scripted (or randomized)
sequence of state mutations. We model each page's tracked state as a
structure, each timer callback as a pure state-transition function (random
draws and values captured in stale closures become explicit parameters), and
the control operations (`start`, `reset`, `pause`, spawn buttons) as
functions on that state.

JS numbers are modelled as `Nat` where the code only adds/subtracts small
non-negative integers, and as `Rat` for the fractional progress counters.
Wall-clock timestamps interpolated into log lines are display metadata with
no influence on control flow; log entries are modelled as the message text
without the timestamp prefix. The interval timer itself is modelled by a
`timerActive` flag (`setInterval` sets it, `clearInterval` clears it).
-/

/-- JavaScript `array.slice(-n)`: the last `n` elements of a list
(the whole list when it has fewer than `n` elements). -/

def lastN {α : Type} (n : Nat) (l : List α) : List α :=
  l.drop (l.length - n)

/-- The log-append pattern shared by every page:
`setLogs(prev => [...prev.slice(-n), entry])` keeps the last `n` previous
entries and appends the new one. -/
def addLogKeep (n : Nat) (m : String) (log : List String) : List String :=
  lastN n log ++ [m]

namespace Deadlock

/-! ## Deadlock demo (`src/unnamed/part_000`, `DeadlockDemo`) -/

inductive TStatus
  | idle
  | acquired
  | waiting
  | deadlocked
  deriving DecidableEq, Repr

/-- `ThreadState` from the source. -/
structure ThreadState where
  id : Nat
  name : String
  color : String
  holdsLock : Option String
  wantsLock : Option String
  status : TStatus
  x : Nat
  y : Nat
  deriving DecidableEq, Repr

/-- `LockState` from the source. -/
structure LockState where
  id : String
  name : String
  heldBy : Option Nat
  x : Nat
  y : Nat
  deriving DecidableEq, Repr

/-- The tracked state of the deadlock page. `step` mirrors both the `step`
state and the `currentStep` closure counter (kept in lock-step by the
interval callback); `timerActive` models whether the interval is scheduled. -/
structure State where
  isRunning : Bool
  isDeadlocked : Bool
  step : Nat
  logs : List String
  threads : List ThreadState
  locks : List LockState
  timerActive : Bool
  deriving DecidableEq, Repr

def initThreads : List ThreadState :=
  [ { id := 1, name := "Thread A", color := "blue", holdsLock := none,
      wantsLock := none, status := .idle, x := 100, y := 150 },
    { id := 2, name := "Thread B", color := "green", holdsLock := none,
      wantsLock := none, status := .idle, x := 400, y := 150 } ]

def initLocks : List LockState :=
  [ { id := "lock1", name := "Lock 1", heldBy := none, x := 180, y := 80 },
    { id := "lock2", name := "Lock 2", heldBy := none, x := 320, y := 80 } ]

/-- Construction-time state of the page (the `useState` initial values). -/
def initState : State :=
  { isRunning := false, isDeadlocked := false, step := 0, logs := [],
    threads := initThreads, locks := initLocks, timerActive := false }

/-- `addLog`: keeps the last 8 entries and appends
(timestamp prefix abstracted away). -/
def addLog (m : String) (s : State) : State :=
  { s with logs := addLogKeep 8 m s.logs }

/-- `reset()`: clears the interval and sets every field back explicitly. -/
def reset (s : State) : State :=
  { s with isRunning := false, isDeadlocked := false, step := 0, logs := [],
           threads := initThreads, locks := initLocks, timerActive := false }

def mapThread (id : Nat) (f : ThreadState → ThreadState) (s : State) : State :=
  { s with threads := s.threads.map (fun t => if t.id = id then f t else t) }

def mapLock (id : String) (f : LockState → LockState) (s : State) : State :=
  { s with locks := s.locks.map (fun l => if l.id = id then f l else l) }

/-- The seven scripted step closures of `runDeadlockScenario`, in order. -/
def steps : List (State → State) :=
  [ fun s => mapThread 1 (fun t => { t with wantsLock := some "lock1", status := .waiting })
      (addLog "Thread A: Acquiring Lock 1..." s),
    fun s => mapLock "lock1" (fun l => { l with heldBy := some 1 })
      (mapThread 1 (fun t => { t with holdsLock := some "lock1", wantsLock := none, status := .acquired })
        (addLog "Thread A: ✓ Acquired Lock 1" s)),
    fun s => mapThread 2 (fun t => { t with wantsLock := some "lock2", status := .waiting })
      (addLog "Thread B: Acquiring Lock 2..." s),
    fun s => mapLock "lock2" (fun l => { l with heldBy := some 2 })
      (mapThread 2 (fun t => { t with holdsLock := some "lock2", wantsLock := none, status := .acquired })
        (addLog "Thread B: ✓ Acquired Lock 2" s)),
    fun s => mapThread 1 (fun t => { t with wantsLock := some "lock2", status := .waiting })
      (addLog "Thread A: Now I need Lock 2... (held by Thread B!)" s),
    fun s => mapThread 2 (fun t => { t with wantsLock := some "lock1", status := .waiting })
      (addLog "Thread B: Now I need Lock 1... (held by Thread A!)" s),
    fun s =>
      let s := addLog "💀 DEADLOCK DETECTED! Both threads waiting forever!" s
      { s with isDeadlocked := true,
               threads := s.threads.map (fun t => { t with status := .deadlocked }),
               isRunning := false } ]

/-- One firing of the interval callback: while `currentStep < steps.length`
apply the next closure and advance the step counter, otherwise clear the
interval. -/
def tick (s : State) : State :=
  if h : s.step < steps.length then
    let s1 := (steps.get ⟨s.step, h⟩) s
    { s1 with step := s.step + 1 }
  else
    { s with timerActive := false }

/-- State right after `runDeadlockScenario()` ran, before the first tick:
`reset()` then `setIsRunning(true)` and the interval is scheduled. -/
def start (s : State) : State :=
  { reset s with isRunning := true, timerActive := true }

/-- `n` firings of the interval callback after `start`. -/
def runTicks : Nat → State
  | 0 => start initState
  | n + 1 => tick (runTicks n)

/-- The seven log messages, in script order. -/
def scriptMessages : List String :=
  [ "Thread A: Acquiring Lock 1...",
    "Thread A: ✓ Acquired Lock 1",
    "Thread B: Acquiring Lock 2...",
    "Thread B: ✓ Acquired Lock 2",
    "Thread A: Now I need Lock 2... (held by Thread B!)",
    "Thread B: Now I need Lock 1... (held by Thread A!)",
    "💀 DEADLOCK DETECTED! Both threads waiting forever!" ]

end Deadlock

namespace Race

/-! ## Race-condition page (`src/app/race-condition/page.tsx`) -/

inductive Step
  | idle
  | reading
  | computing
  | writing
  | done
  deriving DecidableEq, Repr

/-- `ThreadState` from the source. -/
structure ThreadState where
  id : Nat
  step : Step
  localValue : Option Nat
  color : String
  deriving DecidableEq, Repr

/-- `LogEntry` from the source (`timestamp: Date.now()` abstracted away;
the absent optional `isLostUpdate` is modelled as `false`). -/
structure LogEntry where
  threadId : Nat
  action : String
  value : Nat
  isLostUpdate : Bool
  deriving DecidableEq, Repr

inductive ActionKind
  | read
  | compute
  | write
  deriving DecidableEq, Repr

/-- One entry of the hardcoded `sequence` in `runUnsafeDemo`. -/
structure Action where
  threadId : Nat
  action : ActionKind
  desc : String
  deriving DecidableEq, Repr

def initThreads : List ThreadState :=
  [ { id := 1, step := .idle, localValue := none, color := "blue" },
    { id := 2, step := .idle, localValue := none, color := "purple" },
    { id := 3, step := .idle, localValue := none, color := "green" } ]

/-- The unsafe demo's scripted interleaving: all three threads read, then all
compute, then all write. -/
def sequence : List Action :=
  [ { threadId := 1, action := .read, desc := "Read counter" },
    { threadId := 2, action := .read, desc := "Read counter" },
    { threadId := 3, action := .read, desc := "Read counter" },
    { threadId := 1, action := .compute, desc := "Compute +1" },
    { threadId := 2, action := .compute, desc := "Compute +1" },
    { threadId := 3, action := .compute, desc := "Compute +1" },
    { threadId := 1, action := .write, desc := "Write result" },
    { threadId := 2, action := .write, desc := "Write result" },
    { threadId := 3, action := .write, desc := "Write result" } ]

/-- Unsafe-demo state: the page's React state for the unsafe counter together
with the closure variables of `runUnsafeDemo` (`counter`, `step`, `lost`,
`threadLocalValues`), which the callback keeps in lock-step with the
mirrored React state. `locals` models the `threadLocalValues` record; every
read of it in the script is preceded by a write, so the default value is
never observable. -/
structure UState where
  counter : Nat
  threads : List ThreadState
  log : List LogEntry
  running : Bool
  lostUpdates : Nat
  step : Nat
  locals : Nat → Nat
  timerActive : Bool

def updateFn (f : Nat → Nat) (id v : Nat) : Nat → Nat :=
  fun j => if j = id then v else f j

/-- One firing of the unsafe demo's interval callback. -/
def utick (s : UState) : UState :=
  if h : s.step < sequence.length then
    let a := sequence.get ⟨s.step, h⟩
    let s1 : UState :=
      match a.action with
      | .read =>
          { s with locals := updateFn s.locals a.threadId s.counter,
                   threads := s.threads.map (fun t =>
                     if t.id = a.threadId then
                       { t with step := .reading, localValue := some s.counter }
                     else t) }
      | .compute =>
          let computed := s.locals a.threadId + 1
          { s with locals := updateFn s.locals a.threadId computed,
                   threads := s.threads.map (fun t =>
                     if t.id = a.threadId then
                       { t with step := .computing, localValue := some computed }
                     else t) }
      | .write =>
          { s with threads := s.threads.map (fun t =>
              if t.id = a.threadId then { t with step := .writing } else t) }
    let s2 : UState :=
      match a.action with
      | .write =>
          let v := s1.locals a.threadId
          let isLost := v ≤ s1.counter
          let s2 := if isLost then { s1 with lostUpdates := s1.lostUpdates + 1 } else s1
          { s2 with counter := v,
                    log := s2.log ++ [{ threadId := a.threadId,
                                        action := "Wrote " ++ toString v,
                                        value := v, isLostUpdate := isLost }] }
      | k =>
          let shown := match k with
            | .read => s.counter
            | _ => s1.locals a.threadId
          { s1 with log := s1.log ++ [{ threadId := a.threadId,
                                        action := a.desc ++ " (" ++ toString shown ++ ")",
                                        value := s1.counter, isLostUpdate := false }] }
    { s2 with step := s.step + 1 }
  else
    { s with timerActive := false,
             threads := s.threads.map (fun t => { t with step := .done }),
             running := false }

/-- State right after `runUnsafeDemo()` ran, before the first tick: the
unsafe demo's tracked fields are reset and the interval is scheduled. -/
def ustart (_s : UState) : UState :=
  { counter := 0, threads := initThreads, log := [], running := true,
    lostUpdates := 0, step := 0, locals := fun _ => 0, timerActive := true }

/-- Construction-time state of the unsafe demo (closure variables at their
run-start values). -/
def uinit : UState :=
  { counter := 0, threads := initThreads, log := [], running := false,
    lostUpdates := 0, step := 0, locals := fun _ => 0, timerActive := false }

def runUnsafe : Nat → UState
  | 0 => ustart uinit
  | n + 1 => utick (runUnsafe n)

/-- Atomic-demo state: React state plus the closure variables `counter` and
`threadIndex` of `runAtomicDemo` (`counter` mirrors `atomicCounter`). -/
structure AState where
  counter : Nat
  threads : List ThreadState
  log : List LogEntry
  running : Bool
  threadIndex : Nat
  timerActive : Bool
  deriving DecidableEq, Repr

def threadOrder : List Nat := [1, 2, 3]

/-- One firing of the atomic demo's interval callback. -/
def atick (s : AState) : AState :=
  if h : s.threadIndex < threadOrder.length then
    let tid := threadOrder.get ⟨s.threadIndex, h⟩
    { s with threads := s.threads.map (fun t =>
        if t.id = tid then { t with step := .writing, localValue := some (s.counter + 1) } else t),
             counter := s.counter + 1,
             log := s.log ++ [{ threadId := tid,
                                action := "Atomic increment → " ++ toString (s.counter + 1),
                                value := s.counter + 1, isLostUpdate := false }],
             threadIndex := s.threadIndex + 1 }
  else
    { s with timerActive := false,
             threads := s.threads.map (fun t => { t with step := .done }),
             running := false }

def ainit : AState :=
  { counter := 0, threads := initThreads, log := [], running := false,
    threadIndex := 0, timerActive := false }

/-- State right after `runAtomicDemo()` ran, before the first tick. -/
def astart (_s : AState) : AState :=
  { ainit with running := true, timerActive := true }

def runAtomic : Nat → AState
  | 0 => astart ainit
  | n + 1 => atick (runAtomic n)

end Race

namespace CAS

/-! ## Locks & CAS page (`src/unnamed/part_002`, `ConcurrencySolutions`) -/

/-- `CASAttempt` from the source (`timestamp: Date.now()` abstracted away). -/
structure Attempt where
  expected : Nat
  actual : Nat
  newValue : Nat
  success : Bool
  id : Nat
  threadId : Nat
  deriving DecidableEq, Repr

inductive Phase
  | idle
  | reading
  | comparing
  | swapping
  | retrying
  deriving DecidableEq, Repr

/-- `CASDemo` state plus the closure variables of `startCASDemo`:
`attemptIndex`, and `currentValue`, which mirrors `value` (both start at 100
and both are set to `newValue` exactly on success). -/
structure State where
  attempts : List Attempt
  value : Nat
  isRunning : Bool
  phase : Phase
  currentThread : Option Nat
  attemptIndex : Nat
  timerActive : Bool
  deriving DecidableEq, Repr

/-- The scripted `threads` array of `startCASDemo`: the thread id of each of
the five attempts (the `delay` fields are unused animation leftovers). -/
def threadIds : List Nat := [1, 2, 3, 1, 2]

/-- One firing of the CAS demo's interval callback. The "race" is scripted:
on attempts 1 and 2 the observed `actual` value is `currentValue + 1`,
everywhere else it equals `currentValue`. -/
def tick (s : State) : State :=
  if h : s.attemptIndex < threadIds.length then
    let tid := threadIds.get ⟨s.attemptIndex, h⟩
    let expected := s.value
    let actual := if 0 < s.attemptIndex ∧ s.attemptIndex < 3 then s.value + 1 else s.value
    let success := expected == actual
    let newValue := actual + 1
    { s with value := if success then newValue else s.value,
             phase := if success then .swapping else .retrying,
             currentThread := some tid,
             attempts := s.attempts ++ [{ expected := expected, actual := actual,
                                          newValue := newValue, success := success,
                                          id := s.attemptIndex, threadId := tid }],
             attemptIndex := s.attemptIndex + 1 }
  else
    { s with isRunning := false, phase := .idle, currentThread := none,
             timerActive := false }

/-- Construction-time state of the CAS demo. -/
def initState : State :=
  { attempts := [], value := 100, isRunning := false, phase := .idle,
    currentThread := none, attemptIndex := 0, timerActive := false }

/-- State right after `startCASDemo()` ran, before the first tick. -/
def start (_s : State) : State :=
  { initState with isRunning := true, timerActive := true }

/-- `resetCASDemo()`: clears the interval and sets every field back
explicitly. -/
def reset (s : State) : State :=
  { s with attempts := [], value := 100, isRunning := false, phase := .idle,
           currentThread := none, attemptIndex := 0, timerActive := false }

def runTicks : Nat → State
  | 0 => start initState
  | n + 1 => tick (runTicks n)

end CAS

namespace ProdCons

/-! ## Producer-consumer page (`src/app/producer-consumer/page.tsx`)

The interval callback mirrors its closure variables (`localQueue`,
`localProduced`, `localConsumed`, `localItemCounter`) into the React state
after every mutation, so one copy of each is modelled. The `setTimeout`
callbacks that later flip a producer/consumer status back to `idle` run
between ticks in wall-clock time and are not part of the tick itself. -/

inductive IStatus
  | producing
  | inQueue
  | consuming
  | consumed
  deriving DecidableEq, Repr

/-- `Item` from the source. -/
structure Item where
  id : Nat
  color : String
  producedBy : Nat
  status : IStatus
  deriving DecidableEq, Repr

inductive Role
  | producer
  | consumer
  deriving DecidableEq, Repr

inductive TStatus
  | idle
  | working
  | blocked
  | done
  deriving DecidableEq, Repr

/-- `ThreadState` from the source (`type` renamed to `role`). -/
structure ThreadState where
  id : Nat
  name : String
  role : Role
  status : TStatus
  currentItem : Option Nat
  deriving DecidableEq, Repr

def BUFFER_SIZE : Nat := 5

def COLORS : List String :=
  ["#ef4444", "#f97316", "#eab308", "#22c55e", "#3b82f6", "#8b5cf6", "#ec4899"]

structure State where
  isRunning : Bool
  isPaused : Bool
  queue : List Item
  produced : Nat
  consumed : Nat
  logs : List String
  itemCounter : Nat
  producers : List ThreadState
  consumers : List ThreadState
  timerActive : Bool
  deriving DecidableEq, Repr

def initProducers : List ThreadState :=
  [ { id := 1, name := "Producer 1", role := .producer, status := .idle, currentItem := none },
    { id := 2, name := "Producer 2", role := .producer, status := .idle, currentItem := none } ]

def initConsumers : List ThreadState :=
  [ { id := 1, name := "Consumer 1", role := .consumer, status := .idle, currentItem := none },
    { id := 2, name := "Consumer 2", role := .consumer, status := .idle, currentItem := none } ]

/-- Construction-time state of the page. -/
def initState : State :=
  { isRunning := false, isPaused := false, queue := [], produced := 0,
    consumed := 0, logs := [], itemCounter := 0, producers := initProducers,
    consumers := initConsumers, timerActive := false }

/-- `addLog`: keeps the last 12 entries and appends (the html colour span and
timestamp prefix are abstracted away). -/
def addLog (m : String) (logs : List String) : List String := addLogKeep 12 m logs

/-- `reset()`: clears the interval and sets every field back explicitly. -/
def reset (s : State) : State :=
  { s with isRunning := false, isPaused := false, queue := [], produced := 0,
           consumed := 0, logs := [], itemCounter := 0,
           producers := initProducers, consumers := initConsumers,
           timerActive := false }

/-- The random draws one tick consumes: `Math.random() > 0.4` (producer
acts), `Math.random() > 0.5` (producer 1 vs 2), `Math.random() > 0.3`
(consumer acts), `Math.random() > 0.5` (consumer 1 vs 2). -/
structure Draws where
  prodAct : Bool
  prodIs1 : Bool
  consAct : Bool
  consIs1 : Bool
  deriving DecidableEq, Repr

/-- The producer half of the tick body: append an item when the buffer has
room, otherwise only mark the producer blocked and log. -/
def producerAction (is1 : Bool) (s : State) : State :=
  let pid := if is1 then 1 else 2
  if s.queue.length < BUFFER_SIZE then
    let counter := s.itemCounter + 1
    let item : Item := { id := counter, color := COLORS.getD (counter % COLORS.length) "",
                         producedBy := pid, status := .inQueue }
    { s with itemCounter := counter,
             queue := s.queue ++ [item],
             produced := s.produced + 1,
             producers := s.producers.map (fun p =>
               if p.id = pid then { p with status := .working, currentItem := some counter } else p),
             logs := addLog ("Producer " ++ toString pid ++ ": Produced item #" ++ toString counter) s.logs }
  else
    { s with producers := s.producers.map (fun p =>
               if p.id = pid then { p with status := .blocked } else p),
             logs := addLog ("Producer " ++ toString pid ++ ": BLOCKED - Queue full!") s.logs }

/-- The consumer half of the tick body: remove the front item when the queue
is non-empty, otherwise only mark the consumer blocked and log. -/
def consumerAction (is1 : Bool) (s : State) : State :=
  let cid := if is1 then 1 else 2
  match s.queue with
  | item :: rest =>
      { s with queue := rest,
               consumed := s.consumed + 1,
               consumers := s.consumers.map (fun c =>
                 if c.id = cid then { c with status := .working, currentItem := some item.id } else c),
               logs := addLog ("Consumer " ++ toString cid ++ ": Consumed item #" ++ toString item.id) s.logs }
  | [] =>
      { s with consumers := s.consumers.map (fun c =>
                 if c.id = cid then { c with status := .blocked } else c),
               logs := addLog ("Consumer " ++ toString cid ++ ": BLOCKED - Queue empty!") s.logs }

/-- One firing of the interval callback: a no-op while `pauseRef.current` is
set, otherwise the random producer action followed by the random consumer
action. -/
def tick (paused : Bool) (d : Draws) (s : State) : State :=
  if paused then s
  else
    let s1 := if d.prodAct then producerAction d.prodIs1 s else s
    if d.consAct then consumerAction d.consIs1 s1 else s1

/-- State right after `runSimulation()` ran, before the first tick:
`reset()` then `setIsRunning(true)` and the interval is scheduled. -/
def start (s : State) : State :=
  { reset s with isRunning := true, timerActive := true }

/-- A run: `start` followed by a tick per element of `ds` (each element
carries that tick's pause-flag reading and random draws). -/
def run (ds : List (Bool × Draws)) : State :=
  ds.foldl (fun s pd => tick pd.1 pd.2 s) (start initState)

/-- The invariant of C9. -/
def Inv (s : State) : Prop :=
  s.queue.length ≤ BUFFER_SIZE ∧
  s.consumed ≤ s.produced ∧
  s.produced = s.consumed + s.queue.length

end ProdCons

namespace ProdCons

/-- A state with a full buffer (5 items), used as a concrete instance. -/
def demoItem (n : Nat) : Item :=
  { id := n, color := "#ef4444", producedBy := 1, status := .inQueue }

def fullState : State :=
  { initState with queue := [demoItem 1, demoItem 2, demoItem 3, demoItem 4, demoItem 5],
                   produced := 5, itemCounter := 5 }

def oneItemState : State :=
  { initState with queue := [demoItem 1], produced := 1, itemCounter := 1 }

end ProdCons

namespace Starvation

/-! ## Starvation page (`src/app/starvation/page.tsx`)

The interval callback of `runSimulation` closes over the render in which it
was created, so inside a tick the values of `scenario`, `lockHolder` and
`tick` (used by `addLog`) are the stale values captured at start time; they
are passed to the tick function as explicit parameters. `localTick` is a
closure counter mirrored into the `tick` state field. -/

inductive Priority
  | high
  | medium
  | low
  deriving DecidableEq, Repr

inductive TStatus
  | running
  | waiting
  | starving
  deriving DecidableEq, Repr

inductive Scenario
  | unfair
  | fair
  deriving DecidableEq, Repr

/-- `Thread` from the source. -/
structure Thread where
  id : Nat
  name : String
  priority : Priority
  status : TStatus
  waitTime : Nat
  executionTime : Nat
  color : String
  deriving DecidableEq, Repr

structure State where
  isRunning : Bool
  isPaused : Bool
  scenario : Scenario
  threads : List Thread
  currentThread : Option Thread
  logs : List String
  lockHolder : Option Nat
  tick : Nat
  timerActive : Bool
  deriving DecidableEq, Repr

/-- `initThreads()` from the source. -/
def initThreads : List Thread :=
  [ { id := 1, name := "High Priority 1", priority := .high, status := .waiting,
      waitTime := 0, executionTime := 0, color := "#ef4444" },
    { id := 2, name := "High Priority 2", priority := .high, status := .waiting,
      waitTime := 0, executionTime := 0, color := "#f97316" },
    { id := 3, name := "Medium Priority", priority := .medium, status := .waiting,
      waitTime := 0, executionTime := 0, color := "#eab308" },
    { id := 4, name := "Low Priority 1", priority := .low, status := .waiting,
      waitTime := 0, executionTime := 0, color := "#22c55e" },
    { id := 5, name := "Low Priority 2", priority := .low, status := .waiting,
      waitTime := 0, executionTime := 0, color := "#3b82f6" } ]

/-- Construction-time state of the page (`threads` starts as `[]`; the
scenario selector defaults to `unfair`). -/
def initState : State :=
  { isRunning := false, isPaused := false, scenario := .unfair, threads := [],
    currentThread := none, logs := [], lockHolder := none, tick := 0,
    timerActive := false }

/-- `addLog`: keeps the last 12 entries and appends. The `[tick]` prefix uses
the stale `tick` closure value; it is part of the message text and does not
affect control flow, so it is abstracted away. -/
def addLog (m : String) (logs : List String) : List String := addLogKeep 12 m logs

/-- `reset()`: clears the interval and sets the run-state fields back; it
does not touch the `scenario` selector, and it sets `threads` to the
five-thread roster `initThreads()` (not the construction-time `[]`). -/
def reset (s : State) : State :=
  { s with isRunning := false, isPaused := false, threads := initThreads,
           currentThread := none, logs := [], lockHolder := none, tick := 0,
           timerActive := false }

/-- The per-tick wait-time bookkeeping: waiting and starving threads age by
one tick, and a waiting thread whose (pre-update) wait time exceeds 20
becomes starving. -/
def ageThread (t : Thread) : Thread :=
  { t with
    waitTime := if t.status = .waiting ∨ t.status = .starving then t.waitTime + 1 else t.waitTime,
    status := if t.status = .waiting ∧ t.waitTime > 20 then .starving else t.status }

def priorityOrder : Priority → Nat
  | .high => 0
  | .medium => 1
  | .low => 2

/-- The head of the stable sort by ascending `priorityOrder` used by the
unfair scheduler (`waiting.sort(...)[0] || null`): the first element holding
the minimal priority order. -/
def selectUnfair : List Thread → Option Thread
  | [] => none
  | t :: rest =>
      match selectUnfair rest with
      | none => some t
      | some b => if priorityOrder b.priority < priorityOrder t.priority then some b else some t

/-- The fair scheduler's comparator value
`priorityOrder[a] - priorityOrder[b] - floor((b.waitTime - a.waitTime)/10)`
(as an integer). -/
def fairCmp (a b : Thread) : Int :=
  (priorityOrder a.priority : Int) - (priorityOrder b.priority : Int) -
    (((b.waitTime : Int) - (a.waitTime : Int)) / 10)

/-- The head of the sort under the fair comparator, modelled as the first
element no other later element strictly beats (the JS engine's sort is only
specified up to the comparator for consistent comparators; no theorem below
depends on the fair branch). -/
def selectFair : List Thread → Option Thread
  | [] => none
  | t :: rest =>
      match selectFair rest with
      | none => some t
      | some b => if fairCmp b t < 0 then some b else some t

def selectNext (sc : Scenario) (waiting : List Thread) : Option Thread :=
  match sc with
  | .unfair => selectUnfair waiting
  | .fair => selectFair waiting

/-- The waiting set a tick selects from: every (aged) thread whose status is
not `running`. -/
def waitingOf (s : State) : List Thread :=
  (s.threads.map ageThread).filter (fun t => decide (t.status ≠ .running))

/-- One firing of the interval callback. `staleScenario`, `staleLockHolder`
are the render-closure values of `scenario` and `lockHolder` captured when
`runSimulation` ran; `releaseCoin` is `Math.random() > 0.7`. -/
def tick (paused : Bool) (staleScenario : Scenario) (staleLockHolder : Option Nat)
    (releaseCoin : Bool) (s : State) : State :=
  if paused then s
  else
    let threads1 := s.threads.map ageThread
    let waiting := threads1.filter (fun t => decide (t.status ≠ .running))
    let selected := selectNext staleScenario waiting
    let runningThread := threads1.find? (fun t => decide (t.status = .running))
    let s1 : State :=
      match runningThread with
      | some r =>
          if releaseCoin then
            { s with threads := threads1.map (fun t =>
                if t.id = r.id then { t with status := .waiting, waitTime := 0 } else t),
                     logs := addLog (r.name ++ ": Released lock") s.logs,
                     currentThread := none,
                     lockHolder := none,
                     tick := s.tick + 1 }
          else
            { s with threads := threads1, tick := s.tick + 1 }
      | none => { s with threads := threads1, tick := s.tick + 1 }
    match staleLockHolder, selected with
    | none, some sel =>
        let sel1 := { sel with status := .running, executionTime := sel.executionTime + 1 }
        { s1 with threads := s1.threads.map (fun t => if t.id = sel.id then sel1 else t),
                  currentThread := some sel1,
                  lockHolder := some sel.id,
                  logs := addLog (sel.name ++ ": Acquired lock" ++
                    (if sel.waitTime > 20 then " (was starving!)" else "")) s1.logs }
    | _, _ => s1

/-- State right after `runSimulation()` ran, before the first tick:
`reset()`, `setIsRunning(true)`, `setThreads(initThreads())`, interval
scheduled. -/
def start (s : State) : State :=
  { reset s with isRunning := true, threads := initThreads, timerActive := true }

end Starvation

namespace Semaphore

/-! ## Semaphore page (`src/app/semaphore/page.tsx`)

The interval callback closes over the render in which `runSimulation` ran,
so its reads of `availablePermits`, `maxPermits`, `autoSpawn`,
`waitingRequests` and `requestCounter` (the latter two through the
`spawnRequest` closure it calls) are stale values captured at start time;
they are explicit parameters of `tick`. The functional `set...(prev => ...)`
updates act on the live state. -/

inductive RStatus
  | waiting
  | processing
  | completed
  | rejected
  deriving DecidableEq, Repr

/-- `Request` from the source. -/
structure Request where
  id : Nat
  status : RStatus
  color : String
  progress : Rat
  deriving DecidableEq, Repr

def COLORS : List String :=
  ["#ef4444", "#f97316", "#eab308", "#22c55e", "#3b82f6", "#8b5cf6", "#ec4899"]

structure State where
  isRunning : Bool
  isPaused : Bool
  maxPermits : Nat
  availablePermits : Nat
  waitingRequests : List Request
  activeRequests : List Request
  completedCount : Nat
  rejectedCount : Nat
  logs : List String
  requestCounter : Nat
  timerActive : Bool
  deriving DecidableEq, Repr

/-- Construction-time state of the page. -/
def initState : State :=
  { isRunning := false, isPaused := false, maxPermits := 3,
    availablePermits := 3, waitingRequests := [], activeRequests := [],
    completedCount := 0, rejectedCount := 0, logs := [], requestCounter := 0,
    timerActive := false }

/-- `addLog`: keeps the last 12 entries and appends (the html colour span and
timestamp prefix are abstracted away). -/
def addLog (m : String) (logs : List String) : List String := addLogKeep 12 m logs

/-- `reset()`: clears the interval and sets the run-state fields back, but
sets `availablePermits` to the *current* `maxPermits` and leaves
`maxPermits` itself untouched. -/
def reset (s : State) : State :=
  { s with isRunning := false, isPaused := false,
           availablePermits := s.maxPermits, waitingRequests := [],
           activeRequests := [], completedCount := 0, rejectedCount := 0,
           logs := [], requestCounter := 0, timerActive := false }

/-- The `newRequest` object built by `spawnRequest` from the
`requestCounter` value it reads. -/
def newRequest (counter : Nat) : Request :=
  { id := counter + 1, status := .waiting,
    color := COLORS.getD (counter % COLORS.length) "", progress := 0 }

/-- `spawnRequest()` with its three reads (`availablePermits`,
`waitingRequests.length`, `requestCounter`) passed explicitly: when invoked
from the button they are the live values, when invoked from the interval
callback they are the stale start-time values. The `set...` updates
themselves are functional and act on the live state. -/
def spawnRequestWith (dAvail dWaitLen dCounter : Nat) (s : State) : State :=
  let req := newRequest dCounter
  let s1 : State := { s with requestCounter := s.requestCounter + 1 }
  if 0 < dAvail then
    { s1 with availablePermits := s1.availablePermits - 1,
              activeRequests := s1.activeRequests ++ [{ req with status := .processing }],
              logs := addLog ("Request #" ++ toString req.id ++ ": Acquired permit ("
                ++ toString (dAvail - 1) ++ " left)") s1.logs }
  else if dWaitLen < 10 then
    { s1 with waitingRequests := s1.waitingRequests ++ [req],
              logs := addLog ("Request #" ++ toString req.id ++ ": Waiting for permit...") s1.logs }
  else
    { s1 with rejectedCount := s1.rejectedCount + 1,
              logs := addLog ("Request #" ++ toString req.id ++ ": REJECTED - Queue full!") s1.logs }

/-- `spawnRequest()` invoked from the spawn button: all reads are live. -/
def spawnRequest (s : State) : State :=
  spawnRequestWith s.availablePermits s.waitingRequests.length s.requestCounter s

/-- One firing of the interval callback. `draws i` is the `Math.random()`
value used to progress the `i`-th active request; `spawnCoin` is
`Math.random() > 0.6`. -/
def tick (paused : Bool) (staleAvail staleMax : Nat) (staleAutoSpawn : Bool)
    (staleWaitLen staleCounter : Nat) (draws : Nat → Rat) (spawnCoin : Bool)
    (s : State) : State :=
  if paused then s
  else
    let progressed := s.activeRequests.enum.map (fun p =>
      { p.2 with progress := p.2.progress + 100 / (draws p.1 * 3 + 2) })
    let stillActive := progressed.filter (fun r => decide (r.progress < 100))
    let completedL := (progressed.filter (fun r => decide (100 ≤ r.progress))).map
      (fun r => { r with status := RStatus.completed, progress := (100 : Rat) })
    let s1 : State :=
      { s with activeRequests := stillActive,
               availablePermits := completedL.foldl (fun a _ => min (a + 1) staleMax) s.availablePermits,
               completedCount := s.completedCount + completedL.length,
               logs := completedL.foldl (fun lg r =>
                 addLog ("Request #" ++ toString r.id ++ ": ✓ Completed, released permit") lg) s.logs }
    let s2 : State :=
      if s1.waitingRequests.isEmpty then s1
      else
        let c := min staleAvail s1.waitingRequests.length
        let promoting := (s1.waitingRequests.take c).map (fun r => { r with status := RStatus.processing })
        let remaining := s1.waitingRequests.drop c
        if promoting.isEmpty then s1
        else
          { s1 with waitingRequests := remaining,
                    availablePermits := staleAvail - c,
                    activeRequests := s1.activeRequests ++ promoting,
                    logs := promoting.foldl (fun lg r =>
                      addLog ("Request #" ++ toString r.id ++ ": Acquired permit") lg) s1.logs }
    if staleAutoSpawn ∧ spawnCoin then
      spawnRequestWith staleAvail staleWaitLen staleCounter s2
    else s2

/-- State right after `runSimulation()` ran, before the first tick. -/
def start (s : State) : State :=
  { reset s with isRunning := true, timerActive := true }

/-- A state whose waiting queue is full (10 requests) with no permit
available, used as a concrete instance. -/
def queueFullState : State :=
  { initState with availablePermits := 0,
                   waitingRequests := (List.range 10).map newRequest,
                   requestCounter := 10 }

end Semaphore

namespace ThreadPool

/-! ## Thread-pool page (`src/app/thread-pool/page.tsx`) -/

inductive TaskStatus
  | queued
  | processing
  | completed
  deriving DecidableEq, Repr

/-- `Task` from the source. -/
structure Task where
  id : Nat
  duration : Nat
  status : TaskStatus
  assignedTo : Option Nat
  progress : Rat
  color : String
  deriving DecidableEq, Repr

inductive WStatus
  | idle
  | busy
  deriving DecidableEq, Repr

/-- `Worker` from the source. -/
structure Worker where
  id : Nat
  name : String
  status : WStatus
  currentTask : Option Nat
  completedTasks : Nat
  deriving DecidableEq, Repr

def COLORS : List String :=
  ["#ef4444", "#f97316", "#eab308", "#22c55e", "#3b82f6", "#8b5cf6", "#ec4899", "#06b6d4"]

structure State where
  isRunning : Bool
  isPaused : Bool
  workerCount : Nat
  taskQueue : List Task
  completedTasks : List Task
  workers : List Worker
  logs : List String
  taskCounter : Nat
  totalProcessed : Nat
  timerActive : Bool
  deriving DecidableEq, Repr

/-- The worker array the mount/worker-count effect builds. -/
def initWorkers (n : Nat) : List Worker :=
  (List.range n).map (fun i =>
    { id := i + 1, name := "Worker " ++ toString (i + 1), status := .idle,
      currentTask := none, completedTasks := 0 })

/-- Construction-time state of the page (after the mount effect has built
the default 4 workers). -/
def initState : State :=
  { isRunning := false, isPaused := false, workerCount := 4, taskQueue := [],
    completedTasks := [], workers := initWorkers 4, logs := [],
    taskCounter := 0, totalProcessed := 0, timerActive := false }

/-- `addLog`: keeps the last 15 entries and appends (timestamp prefix
abstracted away). -/
def addLog (m : String) (logs : List String) : List String := addLogKeep 15 m logs

/-- `reset()`: clears the interval and the run state, but keeps the current
`workerCount` and rebuilds the workers from it. -/
def reset (s : State) : State :=
  { s with isRunning := false, isPaused := false, taskQueue := [],
           completedTasks := [], logs := [], taskCounter := 0,
           totalProcessed := 0, workers := initWorkers s.workerCount,
           timerActive := false }

/-- Accumulator of the per-worker fold inside the tick. -/
structure TickAcc where
  workers : List Worker
  queue : List Task
  completed : List Task
  logs : List String
  totalProcessed : Nat

/-- The body the tick runs for one worker: progress (and possibly complete)
its current task, then, if (now) idle, grab the first queued task; the
updated worker is appended to the accumulator. -/
def processWorker (acc : TickAcc) (w : Worker) : TickAcc :=
  let step1 : Worker × TickAcc :=
    match w.status, w.currentTask with
    | .busy, some tid =>
        match acc.queue.find? (fun t => decide (t.id = tid)) with
        | some task =>
            let np := task.progress + 100 / (task.duration : Rat) / 4
            if 100 ≤ np then
              let doneTask : Task := { task with status := .completed, progress := (100 : Rat) }
              ({ w with status := .idle, currentTask := none,
                        completedTasks := w.completedTasks + 1 },
               { acc with
                   queue := acc.queue.filter (fun t => decide (t.id ≠ task.id)),
                   completed := acc.completed ++ [doneTask],
                   logs := addLog ("Worker " ++ toString w.id ++ ": ✓ Completed task #"
                     ++ toString task.id) acc.logs,
                   totalProcessed := acc.totalProcessed + 1 })
            else
              (w, { acc with queue := acc.queue.map (fun t =>
                      if t.id = tid then { t with progress := np } else t) })
        | none => (w, acc)
    | _, _ => (w, acc)
  let w1 := step1.1
  let acc1 := step1.2
  if w1.status = .idle then
    match acc1.queue.find? (fun t => decide (t.status = .queued)) with
    | some nextTask =>
        { acc1 with
            workers := acc1.workers ++
              [{ w1 with status := .busy, currentTask := some nextTask.id }],
            queue := acc1.queue.map (fun t =>
              if t.id = nextTask.id then
                { t with status := .processing, assignedTo := some w1.id }
              else t),
            logs := addLog ("Worker " ++ toString w1.id ++ ": Started task #"
              ++ toString nextTask.id) acc1.logs }
    | none => { acc1 with workers := acc1.workers ++ [w1] }
  else { acc1 with workers := acc1.workers ++ [w1] }

/-- One firing of the interval callback: a no-op while paused, otherwise the
sequential per-worker processing, then the completed batch is appended to
`completedTasks` keeping the last 20. -/
def tick (paused : Bool) (s : State) : State :=
  if paused then s
  else
    let acc0 : TickAcc := { workers := [], queue := s.taskQueue, completed := [],
                            logs := s.logs, totalProcessed := s.totalProcessed }
    let acc := s.workers.foldl processWorker acc0
    { s with workers := acc.workers,
             taskQueue := acc.queue,
             completedTasks := if acc.completed.isEmpty then s.completedTasks
               else lastN 20 (s.completedTasks ++ acc.completed),
             logs := acc.logs,
             totalProcessed := acc.totalProcessed }

/-- `runSimulation()` on this page only sets the running flag and schedules
the interval — it performs no reset of the queue, log or counters. -/
def start (s : State) : State :=
  { s with isRunning := true, timerActive := true }

end ThreadPool

namespace MemoryOrdering

/-! ## Memory-ordering page (`src/app/memory-ordering/page.tsx`)

Only the tracked state and `reset()` are embedded here; the two scripted
scenarios follow the same fixed-step pattern as the deadlock page and no
claim depends on their step content. -/

structure CacheState where
  value : Nat
  dirty : Bool
  version : Nat
  deriving DecidableEq, Repr

inductive Scenario
  | broken
  | fixed
  deriving DecidableEq, Repr

inductive RunResult
  | success
  | failure
  deriving DecidableEq, Repr

structure State where
  isRunning : Bool
  step : Nat
  memData : Nat
  memReady : Bool
  core1Cache : CacheState
  core2Cache : CacheState
  core1Action : String
  core2Action : String
  logs : List String
  scenario : Scenario
  result : Option RunResult
  timerActive : Bool
  deriving DecidableEq, Repr

/-- Construction-time state of the page. -/
def initState : State :=
  { isRunning := false, step := 0, memData := 0, memReady := false,
    core1Cache := { value := 0, dirty := false, version := 0 },
    core2Cache := { value := 0, dirty := false, version := 0 },
    core1Action := "", core2Action := "", logs := [], scenario := .broken,
    result := none, timerActive := false }

/-- `reset()`: clears the interval and sets every field back explicitly,
except the `scenario` selector, which it does not touch. -/
def reset (s : State) : State :=
  { s with isRunning := false, step := 0, memData := 0, memReady := false,
           core1Cache := { value := 0, dirty := false, version := 0 },
           core2Cache := { value := 0, dirty := false, version := 0 },
           core1Action := "", core2Action := "", logs := [], result := none,
           timerActive := false }

end MemoryOrdering

namespace AsyncDemo

/-! ## Async-vs-threads page (`src/unnamed/part_001`, `AsyncVsThreadsDemo`)

Only the tracked state and `reset()` are embedded; no claim depends on the
simulation content of `runDemo`. -/

inductive TaskType
  | io
  | cpu
  deriving DecidableEq, Repr

inductive TaskStatus
  | pending
  | running
  | waiting
  | completed
  deriving DecidableEq, Repr

/-- `Task` from the source. -/
structure Task where
  id : Nat
  type : TaskType
  duration : Nat
  status : TaskStatus
  startTime : Nat
  color : String
  progress : Rat
  deriving DecidableEq, Repr

structure State where
  asyncTasks : List Task
  threadTasks : List Task
  parallelTasks : List Task
  asyncTime : Nat
  threadTime : Nat
  parallelTime : Nat
  isRunning : Bool
  logs : List String
  timerActive : Bool
  deriving DecidableEq, Repr

/-- Construction-time state of the page. -/
def initState : State :=
  { asyncTasks := [], threadTasks := [], parallelTasks := [], asyncTime := 0,
    threadTime := 0, parallelTime := 0, isRunning := false, logs := [],
    timerActive := false }

/-- `reset()`: clears the interval and sets every field back explicitly. -/
def reset (s : State) : State :=
  { s with asyncTasks := [], threadTasks := [], parallelTasks := [],
           asyncTime := 0, threadTime := 0, parallelTime := 0,
           isRunning := false, logs := [], timerActive := false }

end AsyncDemo

namespace LockDemo

/-! ## The lock half of the locks-and-CAS page (`src/unnamed/part_002`)

Only the tracked state and `resetLockDemo()` are embedded; no claim depends
on the lock scenario's step content. -/

inductive Phase
  | idle
  | acquiring
  | holding
  | releasing
  deriving DecidableEq, Repr

/-- `LockDemo` from the source. -/
structure State where
  active : Bool
  waiting : List Nat
  currentHolder : Option Nat
  completedThreads : List Nat
  phase : Phase
  executionLog : List String
  timerActive : Bool
  deriving DecidableEq, Repr

/-- Construction-time state. -/
def initState : State :=
  { active := false, waiting := [], currentHolder := none,
    completedThreads := [], phase := .idle, executionLog := [],
    timerActive := false }

/-- `resetLockDemo()`: clears the interval and sets every field back
explicitly. -/
def reset (s : State) : State :=
  { s with active := false, waiting := [], currentHolder := none,
           completedThreads := [], phase := .idle, executionLog := [],
           timerActive := false }

end LockDemo

namespace MemoryOrdering

/-- `addLog`: keeps the last 12 entries and appends (the html colour span is
abstracted away). -/
def addLog (m : String) (logs : List String) : List String := addLogKeep 12 m logs

end MemoryOrdering

namespace AsyncDemo

/-- `addLog`: keeps the last 10 entries and appends. -/
def addLog (m : String) (logs : List String) : List String := addLogKeep 10 m logs

end AsyncDemo

namespace ReaderWriter

/-! ## Reader-writer page (`src/unnamed/part_002`, `ReaderWriterDemo`)

The interval callback of `runSimulation` closes over the render in which it
ran, so its reads of `activeWriter`, `dataVersion`, `waitingWriters`,
`threadCounter` and `activeReaders` (the last three also through the
`addReader`/`addWriter` closures it calls) are the stale start-time values;
they are explicit parameters of `tick`. The functional `set...(prev => ...)`
updates act on the live state. `startTime: Date.now()` is display-only
metadata, modelled as 0. -/

inductive TType
  | reader
  | writer
  deriving DecidableEq, Repr

inductive TStatus
  | idle
  | waiting
  | active
  | done
  deriving DecidableEq, Repr

/-- `Thread` from the source. -/
structure Thread where
  id : Nat
  type : TType
  status : TStatus
  startTime : Nat
  deriving DecidableEq, Repr

structure State where
  isRunning : Bool
  isPaused : Bool
  activeReaders : List Thread
  activeWriter : Option Thread
  waitingReaders : List Thread
  waitingWriters : List Thread
  completedReads : Nat
  completedWrites : Nat
  logs : List String
  threadCounter : Nat
  sharedData : String
  dataVersion : Nat
  timerActive : Bool
  deriving DecidableEq, Repr

/-- Construction-time state of the page. -/
def initState : State :=
  { isRunning := false, isPaused := false, activeReaders := [],
    activeWriter := none, waitingReaders := [], waitingWriters := [],
    completedReads := 0, completedWrites := 0, logs := [], threadCounter := 0,
    sharedData := "Initial Value", dataVersion := 1, timerActive := false }

/-- `addLog`: keeps the last 12 entries and appends (the html colour span and
timestamp prefix are abstracted away). -/
def addLog (m : String) (logs : List String) : List String := addLogKeep 12 m logs

/-- `reset()`: clears the interval and sets every field back explicitly. -/
def reset (s : State) : State :=
  { s with isRunning := false, isPaused := false, activeReaders := [],
           activeWriter := none, waitingReaders := [], waitingWriters := [],
           completedReads := 0, completedWrites := 0, logs := [],
           threadCounter := 0, sharedData := "Initial Value",
           dataVersion := 1, timerActive := false }

/-- `addReader()` with its two reads (`threadCounter`, `activeWriter`)
passed explicitly: live values from the button, stale start-time values
from the interval callback. -/
def addReaderWith (dCounter : Nat) (dWriter : Option Thread) (s : State) : State :=
  let t : Thread := { id := dCounter + 1, type := .reader, status := .waiting, startTime := 0 }
  let s1 : State := { s with threadCounter := s.threadCounter + 1 }
  match dWriter with
  | some _ =>
      { s1 with waitingReaders := s1.waitingReaders ++ [t],
                logs := addLog ("Reader #" ++ toString t.id ++ ": Waiting (writer active)") s1.logs }
  | none =>
      { s1 with activeReaders := s1.activeReaders ++ [{ t with status := .active }],
                logs := addLog ("Reader #" ++ toString t.id ++ ": Started reading") s1.logs }

/-- `addWriter()` with its three reads (`threadCounter`, `activeWriter`,
`activeReaders.length`) passed explicitly. -/
def addWriterWith (dCounter : Nat) (dWriter : Option Thread) (dReadersLen : Nat)
    (s : State) : State :=
  let t : Thread := { id := dCounter + 1, type := .writer, status := .waiting, startTime := 0 }
  let s1 : State := { s with threadCounter := s.threadCounter + 1 }
  if dWriter.isSome ∨ 0 < dReadersLen then
    { s1 with waitingWriters := s1.waitingWriters ++ [t],
              logs := addLog ("Writer #" ++ toString t.id ++ ": Waiting ("
                ++ (if dWriter.isSome then "writer" else "readers") ++ " active)") s1.logs }
  else
    { s1 with activeWriter := some { t with status := .active },
              logs := addLog ("Writer #" ++ toString t.id ++ ": Started writing") s1.logs }

/-- `addWriter()` invoked from its button: all reads are live. -/
def addWriter (s : State) : State :=
  addWriterWith s.threadCounter s.activeWriter s.activeReaders.length s

/-- One firing of the interval callback. `readerDraws i` is the
`Math.random() > 0.7` completion draw of the `i`-th active reader;
`writerCoin` is `Math.random() > 0.6`, `spawnCoin` is
`Math.random() > 0.85` and `readerCoin` is `Math.random() > 0.3`. -/
def tick (paused : Bool) (staleWriter : Option Thread) (staleDataVersion : Nat)
    (staleWaitingWritersLen staleCounter staleReadersLen : Nat)
    (readerDraws : Nat → Bool) (writerCoin spawnCoin readerCoin : Bool)
    (s : State) : State :=
  if paused then s
  else
    let completedR := (s.activeReaders.enum.filter (fun p => readerDraws p.1)).map (fun p => p.2)
    let remaining := (s.activeReaders.enum.filter (fun p => ¬ readerDraws p.1)).map (fun p => p.2)
    let s1 : State :=
      { s with activeReaders := remaining,
               completedReads := s.completedReads + completedR.length,
               logs := completedR.foldl (fun lg r =>
                 addLog ("Reader #" ++ toString r.id ++ ": ✓ Finished reading") lg) s.logs }
    let s2 : State :=
      match staleWriter with
      | some w =>
          if writerCoin then
            { s1 with logs := addLog ("Writer #" ++ toString w.id ++ ": ✓ Finished writing") s1.logs,
                      dataVersion := s1.dataVersion + 1,
                      sharedData := "Modified v" ++ toString (staleDataVersion + 1),
                      completedWrites := s1.completedWrites + 1,
                      activeWriter := none }
          else s1
      | none => s1
    let s3 : State :=
      if s2.activeWriter.isSome then s2
      else if 0 < staleWaitingWritersLen then
        if s2.activeReaders.isEmpty then
          match s2.waitingWriters with
          | next :: rest =>
              { s2 with waitingWriters := rest,
                        activeWriter := some { next with status := .active },
                        logs := addLog ("Writer #" ++ toString next.id ++ ": Started writing") s2.logs }
          | [] => s2
        else s2
      else s2
    let s4 : State :=
      if s3.waitingReaders.isEmpty then s3
      else if staleWriter.isSome then s3
      else if 0 < staleWaitingWritersLen then s3
      else
        let promoted := s3.waitingReaders.take 3
        { s3 with waitingReaders := s3.waitingReaders.drop 3,
                  activeReaders := s3.activeReaders ++ promoted.map (fun r => { r with status := .active }),
                  logs := promoted.foldl (fun lg r =>
                    addLog ("Reader #" ++ toString r.id ++ ": Started reading") lg) s3.logs }
    if spawnCoin then
      if readerCoin then addReaderWith staleCounter staleWriter s4
      else addWriterWith staleCounter staleWriter staleReadersLen s4
    else s4

/-- `runSimulation()` on this page only sets the running flag and schedules
the interval — it performs no reset of the threads, log or counters. -/
def start (s : State) : State :=
  { s with isRunning := true, timerActive := true }

end ReaderWriter

namespace LockDemo

/-- The phase rotation of `startLockDemo`. -/
def phases : List Phase := [.holding, .releasing, .acquiring]

/-- `${x}` of a `number | null` value in a JS template string. -/
def holderStr : Option Nat → String
  | some n => toString n
  | none => "null"

/-- State right after `startLockDemo()` ran, before the first tick: every
tracked field is assigned afresh (thread 1 holds the lock, threads 2-4
wait) and the interval is scheduled. -/
def start (s : State) : State :=
  { s with active := true, waiting := [2, 3, 4], currentHolder := some 1,
           completedThreads := [], phase := .acquiring,
           executionLog := ["Thread 1 acquired the lock"],
           timerActive := true }

/-- One firing of the lock demo's interval callback, threaded with the
closure counter `step` (which does not advance on the completion branch). -/
def tick (p : State × Nat) : State × Nat :=
  let s := p.1
  let step := p.2
  if 4 ≤ s.completedThreads.length then
    ({ s with active := false, phase := .idle, currentHolder := none,
              executionLog := s.executionLog ++ ["‚úÖ All threads completed successfully!"],
              timerActive := false }, step)
  else
    match phases.getD (step % 3) .holding with
    | .holding =>
        ({ s with phase := .holding,
                  executionLog := s.executionLog ++
                    ["Thread " ++ holderStr s.currentHolder ++ " is doing critical work..."] },
         step + 1)
    | .releasing =>
        ({ s with phase := .releasing,
                  completedThreads := match s.currentHolder with
                    | some h => s.completedThreads ++ [h]
                    | none => s.completedThreads,
                  executionLog := s.executionLog ++
                    ["Thread " ++ holderStr s.currentHolder ++ " released the lock"] },
         step + 1)
    | _ =>
        match s.waiting with
        | next :: rest =>
            ({ s with phase := .acquiring, currentHolder := some next, waiting := rest,
                      executionLog := s.executionLog ++
                        ["Thread " ++ toString next ++ " acquired the lock"] },
             step + 1)
        | [] =>
            ({ s with active := false, phase := .idle, currentHolder := none,
                      timerActive := false }, step + 1)

/-- `n` firings of the interval callback after `startLockDemo()`. -/
def runTicks : Nat → State × Nat
  | 0 => (start initState, 0)
  | n + 1 => tick (runTicks n)

end LockDemo

namespace MemoryOrdering

end MemoryOrdering

namespace AsyncDemo

def COLORS : List String :=
  ["#ef4444", "#f97316", "#eab308", "#22c55e", "#3b82f6", "#8b5cf6"]

/-- `createDemoTasks()` from the source. -/
def createDemoTasks : List Task :=
  [ { id := 1, type := .io, duration := 3, status := .pending, startTime := 0,
      color := COLORS.getD 0 "", progress := 0 },
    { id := 2, type := .io, duration := 2, status := .pending, startTime := 0,
      color := COLORS.getD 1 "", progress := 0 },
    { id := 3, type := .io, duration := 4, status := .pending, startTime := 0,
      color := COLORS.getD 2 "", progress := 0 },
    { id := 4, type := .cpu, duration := 2, status := .pending, startTime := 0,
      color := COLORS.getD 3 "", progress := 0 } ]

/-- State right after `runDemo()` ran, before the first tick: `reset()`,
then the running flag is set, the three scenario task lists are seeded with
`createDemoTasks()` and the interval is scheduled. -/
def start (s : State) : State :=
  { reset s with isRunning := true, asyncTasks := createDemoTasks,
                 threadTasks := createDemoTasks, parallelTasks := createDemoTasks,
                 timerActive := true }

end AsyncDemo

/-! ## Theorems -/

theorem lastN_length_le {α : Type} (n : Nat) (l : List α) :
    (lastN n l).length ≤ n := by
  simp only [lastN, List.length_drop]
  omega

theorem addLogKeep_length_le (n : Nat) (m : String) (log : List String) :
    (addLogKeep n m log).length ≤ n + 1 := by
  simp only [addLogKeep, List.length_append, List.length_singleton]
  have h := lastN_length_le n log
  omega

/-- Any sequence of `addLogKeep n` appends keeps a log that starts within
the bound no longer than `n + 1` entries. -/
theorem addLogKeep_foldl_length_le (n : Nat) (ops : List String)
    (l : List String) (hl : l.length ≤ n + 1) :
    (ops.foldl (fun log m => addLogKeep n m log) l).length ≤ n + 1 := by
  rcases h : ops.reverse with _ | ⟨m, rest⟩
  · have : ops = [] := by
      have := congrArg List.reverse h
      simpa using this
    simpa [this] using hl
  · have hops : ops = rest.reverse ++ [m] := by
      have := congrArg List.reverse h
      simpa using this
    subst hops
    rw [List.foldl_append]
    exact addLogKeep_length_le n m _

/-- C1: Running the deadlock demo's run function to completion applies exactly
7 scripted steps, one per tick (after `k ≤ 7` ticks the step counter is `k`
and the log holds the first `k` script lines, in order, ending with the
"💀 DEADLOCK DETECTED!" line at step 7); after the run both threads' status
is `deadlocked`, the running flag is false, and the interval timer is
cleared (and further firings change nothing). -/
theorem deadlock_run_spec :
    (∀ k : Nat, k ≤ 7 →
        (Deadlock.runTicks k).step = k ∧
        (Deadlock.runTicks k).logs = Deadlock.scriptMessages.take k) ∧
    (∀ t ∈ (Deadlock.runTicks 8).threads, t.status = Deadlock.TStatus.deadlocked) ∧
    (Deadlock.runTicks 8).logs = Deadlock.scriptMessages ∧
    (Deadlock.runTicks 8).isRunning = false ∧
    (Deadlock.runTicks 8).timerActive = false ∧
    Deadlock.tick (Deadlock.runTicks 8) = Deadlock.runTicks 8 := by
  refine ⟨?_, by decide, by decide, by decide, by decide, by decide⟩
  intro k hk
  interval_cases k <;> exact ⟨by decide, by decide⟩

/-- Witness for `deadlock_run_spec` at `k = 7`. -/
theorem deadlock_run_spec_witness :
    (Deadlock.runTicks 7).step = 7 ∧
    (Deadlock.runTicks 7).logs = Deadlock.scriptMessages.take 7 :=
  deadlock_run_spec.1 7 (by decide)

/-- C6: The race-condition page's two scripts are deterministic: the unsafe
demo run to completion (9 scripted actions plus the closing tick) ends with
the shared counter at 1, the lost-update count at 2 and all three threads
`done`; the atomic demo ends with the counter at 3 and all three threads
`done`. -/
theorem race_demos_deterministic :
    (Race.runUnsafe 10).counter = 1 ∧
    (Race.runUnsafe 10).lostUpdates = 2 ∧
    (∀ t ∈ (Race.runUnsafe 10).threads, t.step = Race.Step.done) ∧
    (Race.runUnsafe 10).running = false ∧
    (Race.runAtomic 4).counter = 3 ∧
    (∀ t ∈ (Race.runAtomic 4).threads, t.step = Race.Step.done) ∧
    (Race.runAtomic 4).running = false := by
  decide

/-- C10: The CAS demo is fully deterministic (its tick takes no random
input): a complete run records exactly 5 attempts, of which the attempts at
indices 1 and 2 fail and the other three succeed, every recorded attempt has
`success` true exactly when `expected` equals `actual`, and the shared value
goes from 100 to 103. -/
theorem cas_demo_deterministic :
    (CAS.runTicks 6).attempts.length = 5 ∧
    (CAS.runTicks 6).attempts.map (fun a => a.success) = [true, false, false, true, true] ∧
    (CAS.runTicks 6).attempts.map (fun a => a.id) = [0, 1, 2, 3, 4] ∧
    (∀ a ∈ (CAS.runTicks 6).attempts, a.success = true ↔ a.expected = a.actual) ∧
    (CAS.runTicks 6).value = 103 ∧
    CAS.initState.value = 100 ∧
    (CAS.runTicks 6).isRunning = false ∧
    (CAS.runTicks 6).timerActive = false := by
  decide

theorem prodcons_producer_inv (b : Bool) (s : ProdCons.State) (h : ProdCons.Inv s) :
    ProdCons.Inv (ProdCons.producerAction b s) := by
  rcases h with ⟨h1, h2, h3⟩
  by_cases hq : s.queue.length < 5
  · simp only [ProdCons.producerAction, ProdCons.Inv, ProdCons.BUFFER_SIZE,
      hq, if_true, List.length_append, List.length_singleton]
    omega
  · simp only [ProdCons.producerAction, ProdCons.Inv, ProdCons.BUFFER_SIZE,
      hq, if_false]
    exact ⟨h1, h2, h3⟩

theorem prodcons_consumer_inv (b : Bool) (s : ProdCons.State) (h : ProdCons.Inv s) :
    ProdCons.Inv (ProdCons.consumerAction b s) := by
  rcases h with ⟨h1, h2, h3⟩
  rcases hq : s.queue with _ | ⟨it, rest⟩
  · simp only [ProdCons.consumerAction, ProdCons.Inv, hq]
    rw [hq] at h1 h3
    refine ⟨by simp, h2, ?_⟩
    simpa [hq] using h3
  · simp only [ProdCons.consumerAction, ProdCons.Inv, hq]
    rw [hq] at h1 h3
    simp only [List.length_cons] at h1 h3
    refine ⟨by omega, by omega, by omega⟩

theorem prodcons_tick_inv (p : Bool) (d : ProdCons.Draws) (s : ProdCons.State)
    (h : ProdCons.Inv s) : ProdCons.Inv (ProdCons.tick p d s) := by
  unfold ProdCons.tick
  by_cases hp : p
  · simp only [hp, if_true]
    exact h
  · simp only [hp, if_false]
    have h1 : ProdCons.Inv (if d.prodAct then ProdCons.producerAction d.prodIs1 s else s) := by
      by_cases ha : d.prodAct
      · simpa [ha] using prodcons_producer_inv d.prodIs1 s h
      · simpa [ha] using h
    by_cases hc : d.consAct
    · simpa [hc] using prodcons_consumer_inv d.consIs1 _ h1
    · simpa [hc] using h1

theorem prodcons_foldl_inv (ds : List (Bool × ProdCons.Draws)) :
    ∀ s : ProdCons.State, ProdCons.Inv s →
      ProdCons.Inv (ds.foldl (fun s pd => ProdCons.tick pd.1 pd.2 s) s) := by
  induction ds with
  | nil => intro s h; exact h
  | cons pd rest ih =>
      intro s h
      exact ih _ (prodcons_tick_inv pd.1 pd.2 s h)

/-- C9: In the producer-consumer demo, every state reachable by a run
satisfies: queue length ≤ 5, consumed ≤ produced, and
produced = consumed + queue length; the producer action appends an item only
when the queue is below the buffer size (a full queue leaves the queue and
the produced counter unchanged), and the consumer action removes the front
item only when the queue is non-empty. -/
theorem prodcons_invariants :
    (∀ ds : List (Bool × ProdCons.Draws), ProdCons.Inv (ProdCons.run ds)) ∧
    (∀ (b : Bool) (s : ProdCons.State), ProdCons.BUFFER_SIZE ≤ s.queue.length →
        (ProdCons.producerAction b s).queue = s.queue ∧
        (ProdCons.producerAction b s).produced = s.produced) ∧
    (∀ (b : Bool) (s : ProdCons.State), s.queue.length < ProdCons.BUFFER_SIZE →
        (ProdCons.producerAction b s).queue.length = s.queue.length + 1 ∧
        (ProdCons.producerAction b s).produced = s.produced + 1) ∧
    (∀ (b : Bool) (s : ProdCons.State), s.queue = [] →
        (ProdCons.consumerAction b s).queue = [] ∧
        (ProdCons.consumerAction b s).consumed = s.consumed) ∧
    (∀ (b : Bool) (s : ProdCons.State) (it : ProdCons.Item) (rest : List ProdCons.Item),
        s.queue = it :: rest →
        (ProdCons.consumerAction b s).queue = rest ∧
        (ProdCons.consumerAction b s).consumed = s.consumed + 1) := by
  refine ⟨?_, ?_, ?_, ?_, ?_⟩
  · intro ds
    exact prodcons_foldl_inv ds _ ⟨by decide, by decide, by decide⟩
  · intro b s h
    have hq : ¬ s.queue.length < 5 := by
      simpa [ProdCons.BUFFER_SIZE] using h
    constructor <;> simp [ProdCons.producerAction, ProdCons.BUFFER_SIZE, hq]
  · intro b s h
    have hq : s.queue.length < 5 := by
      simpa [ProdCons.BUFFER_SIZE] using h
    constructor <;> simp [ProdCons.producerAction, ProdCons.BUFFER_SIZE, hq]
  · intro b s h
    rcases s with ⟨ir, ip, q, pr, co, lg, ic, ps, cs, ta⟩
    simp only at h
    subst h
    constructor <;> simp [ProdCons.consumerAction]
  · intro b s it rest h
    rcases s with ⟨ir, ip, q, pr, co, lg, ic, ps, cs, ta⟩
    simp only at h
    subst h
    constructor <;> simp [ProdCons.consumerAction]

/-- Witness for `prodcons_invariants` at concrete inputs. -/
theorem prodcons_invariants_witness :
    ProdCons.Inv (ProdCons.run []) ∧
    (ProdCons.producerAction true ProdCons.fullState).queue = ProdCons.fullState.queue ∧
    (ProdCons.producerAction true ProdCons.initState).produced = ProdCons.initState.produced + 1 ∧
    (ProdCons.consumerAction true ProdCons.initState).queue = [] ∧
    (ProdCons.consumerAction true ProdCons.oneItemState).queue = [] :=
  ⟨prodcons_invariants.1 [],
   (prodcons_invariants.2.1 true ProdCons.fullState (by decide)).1,
   (prodcons_invariants.2.2.1 true ProdCons.initState (by decide)).2,
   (prodcons_invariants.2.2.2.1 true ProdCons.initState rfl).1,
   (prodcons_invariants.2.2.2.2 true ProdCons.oneItemState (ProdCons.demoItem 1) [] rfl).1⟩

theorem selectUnfair_eq_none (l : List Starvation.Thread)
    (h : Starvation.selectUnfair l = none) : l = [] := by
  cases l with
  | nil => rfl
  | cons t rest =>
      simp only [Starvation.selectUnfair] at h
      cases hr : Starvation.selectUnfair rest with
      | none => rw [hr] at h; cases h
      | some b =>
          simp only [hr] at h
          by_cases hc : Starvation.priorityOrder b.priority < Starvation.priorityOrder t.priority
          · rw [if_pos hc] at h; cases h
          · rw [if_neg hc] at h; cases h

theorem selectUnfair_min :
    ∀ (l : List Starvation.Thread) (x : Starvation.Thread),
      Starvation.selectUnfair l = some x →
      x ∈ l ∧ ∀ t ∈ l,
        Starvation.priorityOrder x.priority ≤ Starvation.priorityOrder t.priority := by
  intro l
  induction l with
  | nil => intro x h; cases h
  | cons t rest ih =>
      intro x h
      simp only [Starvation.selectUnfair] at h
      cases hr : Starvation.selectUnfair rest with
      | none =>
          simp only [hr] at h
          injection h with h
          subst h
          have hrest := selectUnfair_eq_none rest hr
          subst hrest
          refine ⟨List.mem_cons_self _ _, ?_⟩
          intro u hu
          rcases List.mem_cons.mp hu with rfl | hu2
          · exact le_refl _
          · cases hu2
      | some b =>
          simp only [hr] at h
          obtain ⟨hbmem, hbmin⟩ := ih b hr
          by_cases hc : Starvation.priorityOrder b.priority < Starvation.priorityOrder t.priority
          · rw [if_pos hc] at h
            injection h with h
            subst h
            refine ⟨List.mem_cons_of_mem _ hbmem, ?_⟩
            intro u hu
            rcases List.mem_cons.mp hu with rfl | hu2
            · exact le_of_lt hc
            · exact hbmin u hu2
          · rw [if_neg hc] at h
            injection h with h
            subst h
            refine ⟨List.mem_cons_self _ _, ?_⟩
            intro u hu
            rcases List.mem_cons.mp hu with rfl | hu2
            · exact le_refl _
            · have := hbmin u hu2
              omega

/-- C7: In the starvation demo's unfair scenario, whenever a tick assigns the
lock (the stale lock-holder reading is null and the waiting set is
non-empty), the selected thread has maximal priority among all threads not
currently running: no waiting or starving thread has a strictly higher
priority (strictly smaller priority order) than the one chosen. -/
theorem starvation_unfair_max_priority (coin : Bool) (s : Starvation.State)
    (sel : Starvation.Thread)
    (hsel : Starvation.selectUnfair (Starvation.waitingOf s) = some sel) :
    (Starvation.tick false .unfair none coin s).lockHolder = some sel.id ∧
    ∀ t ∈ Starvation.waitingOf s,
      Starvation.priorityOrder sel.priority ≤ Starvation.priorityOrder t.priority := by
  constructor
  · simp only [Starvation.waitingOf] at hsel
    simp only [Starvation.tick, Bool.false_eq_true, if_false, Starvation.selectNext, hsel]
  · intro t ht
    exact (selectUnfair_min _ sel hsel).2 t ht

/-- Witness for `starvation_unfair_max_priority`: the first tick after
starting the simulation assigns the lock to thread 1 (High Priority 1). -/
theorem starvation_unfair_max_priority_witness :
    (Starvation.tick false .unfair none false
      (Starvation.start Starvation.initState)).lockHolder = some 1 :=
  (starvation_unfair_max_priority false (Starvation.start Starvation.initState)
    { id := 1, name := "High Priority 1", priority := .high, status := .waiting,
      waitTime := 1, executionTime := 0, color := "#ef4444" } (by decide)).1

theorem deadlock_addLog_foldl (ops : List String) :
    ∀ s : Deadlock.State,
      (ops.foldl (fun st m => Deadlock.addLog m st) s).logs =
        ops.foldl (fun lg m => addLogKeep 8 m lg) s.logs := by
  induction ops with
  | nil => intro _; rfl
  | cons m rest ih => intro s; exact ih (Deadlock.addLog m s)

/-- C3: While the pause flag is set, every timer tick is a no-op on each of
the five demos that offer pause (producer-consumer, starvation, semaphore,
thread pool, reader-writer): the tick returns the state unchanged, whatever
the random draws and stale closure readings. -/
theorem paused_tick_noop :
    (∀ (d : ProdCons.Draws) (s : ProdCons.State), ProdCons.tick true d s = s) ∧
    (∀ (sc : Starvation.Scenario) (lh : Option Nat) (coin : Bool) (s : Starvation.State),
        Starvation.tick true sc lh coin s = s) ∧
    (∀ (a m wl c : Nat) (auto : Bool) (draws : Nat → Rat) (coin : Bool) (s : Semaphore.State),
        Semaphore.tick true a m auto wl c draws coin s = s) ∧
    (∀ s : ThreadPool.State, ThreadPool.tick true s = s) ∧
    (∀ (sw : Option ReaderWriter.Thread) (dv wwl c rl : Nat) (rd : Nat → Bool)
        (wc sc rc : Bool) (s : ReaderWriter.State),
        ReaderWriter.tick true sw dv wwl c rl rd wc sc rc s = s) :=
  ⟨fun _ _ => rfl, fun _ _ _ _ => rfl, fun _ _ _ _ _ _ _ _ => rfl, fun _ => rfl,
   fun _ _ _ _ _ _ _ _ _ _ => rfl⟩

/-- C5 (amended): each page's `addLog` keeps the last N previous entries and
appends one, so after any sequence of appends the log holds at most N + 1
of the most recent entries: 9 on the deadlock page, 13 on the semaphore,
producer-consumer, starvation, memory-ordering and reader-writer pages, 11
on the async-vs-threads page, and 16 on the thread-pool page. The
race-condition page's logs and the locks-and-CAS page's `executionLog` and
`attempts` lists are not trimmed at all, but each run first clears them and
a complete run appends only a fixed number of entries: 9 (race unsafe),
3 (race atomic), 13 (lock demo) and 5 (CAS attempts). -/
theorem log_bounded :
    (∀ ops : List String,
      ((ops.foldl (fun st m => Deadlock.addLog m st) Deadlock.initState).logs).length ≤ 9) ∧
    (∀ ops : List String, (ops.foldl (fun lg m => Semaphore.addLog m lg) []).length ≤ 13) ∧
    (∀ ops : List String, (ops.foldl (fun lg m => ProdCons.addLog m lg) []).length ≤ 13) ∧
    (∀ ops : List String, (ops.foldl (fun lg m => Starvation.addLog m lg) []).length ≤ 13) ∧
    (∀ ops : List String, (ops.foldl (fun lg m => MemoryOrdering.addLog m lg) []).length ≤ 13) ∧
    (∀ ops : List String, (ops.foldl (fun lg m => ReaderWriter.addLog m lg) []).length ≤ 13) ∧
    (∀ ops : List String, (ops.foldl (fun lg m => AsyncDemo.addLog m lg) []).length ≤ 11) ∧
    (∀ ops : List String, (ops.foldl (fun lg m => ThreadPool.addLog m lg) []).length ≤ 16) ∧
    (Race.runUnsafe 10).log.length = 9 ∧
    (Race.runAtomic 4).log.length = 3 ∧
    ((LockDemo.runTicks 12).1.executionLog.length = 13 ∧
      (LockDemo.runTicks 12).1.timerActive = false) ∧
    (CAS.runTicks 6).attempts.length = 5 := by
  refine ⟨?_, ?_, ?_, ?_, ?_, ?_, ?_, ?_, by decide, by decide, by decide, by decide⟩
  · intro ops
    rw [deadlock_addLog_foldl ops Deadlock.initState]
    exact addLogKeep_foldl_length_le 8 ops _ (by decide)
  all_goals intro ops
  · exact addLogKeep_foldl_length_le 12 ops [] (by decide)
  · exact addLogKeep_foldl_length_le 12 ops [] (by decide)
  · exact addLogKeep_foldl_length_le 12 ops [] (by decide)
  · exact addLogKeep_foldl_length_le 12 ops [] (by decide)
  · exact addLogKeep_foldl_length_le 12 ops [] (by decide)
  · exact addLogKeep_foldl_length_le 10 ops [] (by decide)
  · exact addLogKeep_foldl_length_le 15 ops [] (by decide)

/-- C5 counterexample: sixteen appends through the thread-pool page's
`addLog` produce a log of 16 entries — above the 8–15 range the claim
allows. -/
theorem log_bounded_counterexample :
    ((List.replicate 16 "Worker 1: Started task #1").foldl
        (fun lg m => ThreadPool.addLog m lg) []).length = 16 ∧
    ¬ (16 ≤ 15) := by
  decide

/-- C8 (amended): spawning a semaphore request is rejected (the rejected
counter is incremented and a "REJECTED - Queue full!" line is logged) if
and only if no permit is available and the waiting queue already holds 10
requests; otherwise the request is admitted, acquiring a permit when one is
available and joining the waiting queue otherwise. Besides the rejected
counter and the log, a rejection also increments the request id counter
(which every spawn increments); it changes nothing else. -/
theorem semaphore_spawn_spec (s : Semaphore.State)
    (h : s.waitingRequests.length ≤ 10) :
    ((Semaphore.spawnRequest s).rejectedCount = s.rejectedCount + 1 ↔
      s.availablePermits = 0 ∧ s.waitingRequests.length = 10) ∧
    (s.availablePermits = 0 → s.waitingRequests.length = 10 →
      Semaphore.spawnRequest s =
        { s with rejectedCount := s.rejectedCount + 1,
                 requestCounter := s.requestCounter + 1,
                 logs := Semaphore.addLog ("Request #" ++ toString (s.requestCounter + 1)
                   ++ ": REJECTED - Queue full!") s.logs }) ∧
    (0 < s.availablePermits →
      (Semaphore.spawnRequest s).activeRequests =
        s.activeRequests ++ [{ Semaphore.newRequest s.requestCounter with status := .processing }] ∧
      (Semaphore.spawnRequest s).waitingRequests = s.waitingRequests ∧
      (Semaphore.spawnRequest s).availablePermits = s.availablePermits - 1 ∧
      (Semaphore.spawnRequest s).rejectedCount = s.rejectedCount) ∧
    (s.availablePermits = 0 → s.waitingRequests.length < 10 →
      (Semaphore.spawnRequest s).waitingRequests =
        s.waitingRequests ++ [Semaphore.newRequest s.requestCounter] ∧
      (Semaphore.spawnRequest s).activeRequests = s.activeRequests ∧
      (Semaphore.spawnRequest s).availablePermits = s.availablePermits ∧
      (Semaphore.spawnRequest s).rejectedCount = s.rejectedCount) := by
  by_cases ha : 0 < s.availablePermits
  · refine ⟨?_, ?_, ?_, ?_⟩
    · simp only [Semaphore.spawnRequest, Semaphore.spawnRequestWith, ha, if_true]
      constructor
      · intro hc
        omega
      · rintro ⟨h0, _⟩
        omega
    · intro h0
      omega
    · intro _
      refine ⟨?_, ?_, ?_, ?_⟩ <;>
        simp [Semaphore.spawnRequest, Semaphore.spawnRequestWith, ha]
    · intro h0
      omega
  · by_cases hw : s.waitingRequests.length < 10
    · refine ⟨?_, ?_, ?_, ?_⟩
      · simp only [Semaphore.spawnRequest, Semaphore.spawnRequestWith, ha, if_false, hw, if_true]
        constructor
        · intro hc
          omega
        · rintro ⟨_, h10⟩
          omega
      · intro _ h10
        omega
      · intro hp
        exact absurd hp ha
      · intro _ _
        refine ⟨?_, ?_, ?_, ?_⟩ <;>
          simp [Semaphore.spawnRequest, Semaphore.spawnRequestWith, ha, hw]
    · have h10 : s.waitingRequests.length = 10 := by omega
      refine ⟨?_, ?_, ?_, ?_⟩
      · simp only [Semaphore.spawnRequest, Semaphore.spawnRequestWith, ha, if_false, hw]
        constructor
        · intro _
          exact ⟨by omega, h10⟩
        · intro _
          trivial
      · intro _ _
        simp [Semaphore.spawnRequest, Semaphore.spawnRequestWith, Semaphore.newRequest, ha, hw]
      · intro hp
        exact absurd hp ha
      · intro _ hlt
        omega

/-- Witness for `semaphore_spawn_spec`: with a full queue and no permit the
spawn is rejected; in the construction-time state (3 permits) the spawned
request is admitted without touching the waiting queue. -/
theorem semaphore_spawn_spec_witness :
    (Semaphore.spawnRequest Semaphore.queueFullState).rejectedCount =
      Semaphore.queueFullState.rejectedCount + 1 ∧
    (Semaphore.spawnRequest Semaphore.initState).waitingRequests =
      Semaphore.initState.waitingRequests :=
  ⟨(semaphore_spawn_spec Semaphore.queueFullState (by decide)).1.mpr (by decide),
   ((semaphore_spawn_spec Semaphore.initState (by decide)).2.2.1 (by decide)).2.1⟩

/-- C8 counterexample: a rejection does not leave all other tracked state
unchanged — it also increments the request id counter (from 10 to 11 in the
full-queue state). -/
theorem semaphore_spawn_counterexample :
    (Semaphore.spawnRequest Semaphore.queueFullState).rejectedCount =
      Semaphore.queueFullState.rejectedCount + 1 ∧
    (Semaphore.spawnRequest Semaphore.queueFullState).requestCounter = 11 ∧
    Semaphore.queueFullState.requestCounter = 10 := by
  decide
